import Mathlib

/-!
Shallow embedding of the quokka-crawler TikTok scraping pipeline
(src/components/scraper.py, src/components/helpers.py,
src/components/input_api.py).

Network I/O is modelled by explicit response traces: every fetch consumes
the next element of a list of predetermined responses (the request
parameters the loop would send are therefore not observable, but the
control flow driven by the responses is embedded faithfully).  Python
exceptions are modelled with an explicit error type; a `try/except`
boundary in the source becomes a `match` collapsing the error case.
JSON parsing and the HTTP transport are external collaborators of the
repository, so trace elements carry already-parsed pages or the exception
that `json.loads` would raise.
-/

/-- The Python exception classes the embedded code can raise.  `fuel`
marks the artificial end of a response trace: the real loop would keep
fetching, so a `fuel` outcome means the observation window ended, never
that the code stopped. -/
inductive PyErr where
  | keyError
  | typeError
  | attributeError
  | valueError
  | transport
  | fuel

/-- Python values as they occur in the dictionaries the scraper touches. -/
inductive PyVal where
  | str (s : String)
  | int (n : Int)
  | bool (b : Bool)

/-- Python `str(v)` for the values of `PyVal`. -/
def pyStr : PyVal → String
  | .str s => s
  | .int n => toString n
  | .bool b => if b then "True" else "False"

/-- Python `v += 1`: succeeds on numbers, raises `TypeError` on a string
(`can only concatenate str (not "int") to str`). -/
def pyPlusOne : PyVal → Except PyErr PyVal
  | .int n => .ok (.int (n + 1))
  | .bool b => .ok (.int ((if b then 1 else 0) + 1))
  | .str _ => .error .typeError

/-- A Python dict with string keys, in insertion order. -/
abbrev Dict := List (String × PyVal)

/-- Python `d.get(k)`. -/
def dictGet (d : Dict) (k : String) : Option PyVal :=
  (d.find? (fun kv => kv.1 == k)).map (fun kv => kv.2)

/-- Python `d[k] = v`: overwrite in place if the key exists, else append. -/
def dictSet (d : Dict) (k : String) (v : PyVal) : Dict :=
  if d.any (fun kv => kv.1 == k) then
    d.map (fun kv => if kv.1 == k then (k, v) else kv)
  else d ++ [(k, v)]

/-- Python `{**a, **b}`: keys of `a` in order, values overridden by `b`,
then the new keys of `b`. -/
def dictMerge (a b : Dict) : Dict :=
  b.foldl (fun d kv => dictSet d kv.1 kv.2) a

/-- Embedding of `TikTokScraper.calculate_engagement_rate` (scraper.py lines 70-81):
`(likes + comments + shares) / views * 100 if views > 0 else 0`.
Python's true division is modelled exactly over `Rat`. -/
def calculate_engagement_rate (likes comments shares views : Int) : Rat :=
  if views > 0 then ((likes : Rat) + comments + shares) / views * 100 else 0

/-- Outcome of the ingestion POST made by `input_data_to_api`:
an HTTP status with a response body, or a `requests.RequestException`. -/
inductive PostResp where
  | status (code : Int) (text : String)
  | exc

/-- Embedding of `input_data_to_api` (helpers.py lines 54-74).  The first component is
the Python return value (`None` modelled as `none`; note that the 422
branch only executes `i = 0` and then falls off the end of the function,
so Python returns `None` implicitly).  The second component records
whether the "Unable to get data" failure log line ran. -/
def input_data_to_api (resp : PostResp) : Option String × Bool :=
  match resp with
  | .exc => (none, true)
  | .status code text =>
    if code = 200 then (some text, false)
    else if code = 422 then (none, false)
    else (none, true)

/-- Claim C4: for all integer inputs, `calculate_engagement_rate` equals
`(likes + comments + shares) / views * 100` when `views > 0` and equals
`0` when `views = 0`, regardless of the other inputs. -/
theorem C4_engagement_rate (likes comments shares views : Int) :
    (0 < views →
      calculate_engagement_rate likes comments shares views =
        ((likes : Rat) + comments + shares) / views * 100) ∧
    (views = 0 → calculate_engagement_rate likes comments shares views = 0) := by
  constructor
  · intro h
    unfold calculate_engagement_rate
    rw [if_pos h]
  · intro h
    subst h
    unfold calculate_engagement_rate
    rw [if_neg (by norm_num)]

/-- Witness for C4, Scenario B: `views=100, likes=10, comments=5,
shares=5` yields exactly `20`, and `views = 0` yields `0`. -/
theorem C4_engagement_rate_witness :
    calculate_engagement_rate 10 5 5 100 = 20 ∧
    calculate_engagement_rate 10 5 5 0 = 0 := by
  constructor
  · rw [(C4_engagement_rate 10 5 5 100).1 (by norm_num)]
    norm_num
  · exact (C4_engagement_rate 10 5 5 0).2 rfl

/-- Counterexample for C9: on HTTP 422 the function returns `None`
(Python's implicit return), the very same value that the explicit
failure branch returns for HTTP 500 — not a success value distinct from
the null returned by other non-200 statuses, as the claim states. -/
theorem C9_counterexample :
    (input_data_to_api (.status 422 "ignored")).1 = none ∧
    (input_data_to_api (.status 422 "ignored")).1 =
      (input_data_to_api (.status 500 "ignored")).1 :=
  ⟨rfl, rfl⟩

/-- Claim C9 (amended): HTTP 200 returns the response text; HTTP 422
takes a distinct branch that performs no retry, no corrective action and
no failure log, and implicitly returns null (the same return value as
the failure branch); every other status (and a request exception) logs
the failure and returns null. -/
theorem C9_status_branches (code : Int) (text : String) :
    (code = 200 → input_data_to_api (.status code text) = (some text, false)) ∧
    (code = 422 → input_data_to_api (.status code text) = (none, false)) ∧
    (code ≠ 200 → code ≠ 422 → input_data_to_api (.status code text) = (none, true)) ∧
    input_data_to_api .exc = (none, true) := by
  refine ⟨?_, ?_, ?_, rfl⟩
  · intro h
    subst h
    rfl
  · intro h
    subst h
    rfl
  · intro h200 h422
    simp [input_data_to_api, h200, h422]

/-- Witness for C9 (amended), Scenario D: concrete pushes with statuses
200, 422 and 500. -/
theorem C9_status_branches_witness :
    input_data_to_api (.status 200 "body") = (some "body", false) ∧
    input_data_to_api (.status 422 "body") = (none, false) ∧
    input_data_to_api (.status 500 "body") = (none, true) := by
  refine ⟨?_, ?_, ?_⟩
  · exact (C9_status_branches 200 "body").1 rfl
  · exact (C9_status_branches 422 "body").2.1 rfl
  · exact (C9_status_branches 500 "body").2.2.1 (by norm_num) (by norm_num)

/-- A raw reply dictionary as it arrives from the comment/reply JSON.
`user` is `comment['user']['unique_id']` when both keys are present
(direct subscripting in the source raises `KeyError` otherwise);
`is_author_reply` is absent (`none`) unless the pipeline sets it. -/
structure RawReply where
  user : Option String
  is_author_reply : Option Bool

/-- Python `{**comment, 'is_author_reply': comment['user']['unique_id'] == unique_id}`
(scraper.py lines 316-319), for a single reply. -/
def tagReply (uid : String) (r : RawReply) : Except PyErr RawReply :=
  match r.user with
  | none => .error .keyError
  | some u => .ok { user := some u, is_author_reply := some (u == uid) }

/-- The list comprehension of scraper.py lines 316-319: replies are
tagged in order and the first `KeyError` aborts the whole batch. -/
def tagReplies (uid : String) : List RawReply → Except PyErr (List RawReply)
  | [] => .ok []
  | r :: rs =>
    match tagReply uid r with
    | .error e => .error e
    | .ok r' =>
      match tagReplies uid rs with
      | .error e => .error e
      | .ok rest => .ok (r' :: rest)

/-- The parsed body of one reply-list response (`json.loads(data)` in
`fetch_comment_replies`): the `comments` and `cursor` fields, each
`none` when absent so that `.get` defaults apply. -/
structure ReplyPage where
  comments : Option (List RawReply)
  cursor : Option PyVal

/-- Embedding of `TikTokScraper.fetch_comment_replies` (scraper.py lines 286-321),
driven by one trace element.  A trace error stands for the exception
`json.loads` raises on a failed or malformed response.  The returned
cursor is `reply_data.get('cursor', '')`. -/
def fetch_comment_replies (uid : String) (resp : Except PyErr ReplyPage) :
    Except PyErr (List RawReply × PyVal) :=
  match resp with
  | .error e => .error e
  | .ok page =>
    match tagReplies uid (page.comments.getD []) with
    | .error e => .error e
    | .ok tagged => .ok (tagged, page.cursor.getD (.str ""))

/-- The `while True` loop of `extract_comment_replies` (scraper.py lines
273-284).  Each iteration consumes one trace element; the `cursor` local
starts at the integer 0 and is reassigned to the fetched page's cursor,
then incremented with `+= 1`.  The second component counts the fetches
performed.  Exceptions escape (there is no `try` here). -/
def replyLoop (uid : String) (cursor : PyVal) (acc : List RawReply) :
    List (Except PyErr ReplyPage) → Except PyErr (List RawReply) × Nat
  | [] => (.error .fuel, 0)
  | resp :: rest =>
    match fetch_comment_replies uid resp with
    | .error e => (.error e, 1)
    | .ok (newReplies, newCursor) =>
      if newReplies.isEmpty then (.ok acc, 1)
      else
        match pyPlusOne newCursor with
        | .error e => (.error e, 1)
        | .ok cursor2 =>
          let r := replyLoop uid cursor2 (acc ++ newReplies) rest
          (r.1, r.2 + 1)

/-- A raw comment dictionary.  `user` collapses
`comment['user']['unique_id']` (a `KeyError` when `none`); the other
fields are read with `.get` and its defaults in the source. -/
structure RawComment where
  user : Option String
  cid : Option String
  aweme_id : Option String
  reply_comment_total : Option Int
  reply_comment : Option (List RawReply)
  is_author_reply : Option Bool

/-- Embedding of `TikTokScraper.extract_comment_replies` (scraper.py lines 255-284):
a stated reply count `<= 4` (default 0) returns the embedded
`reply_comment` list verbatim with zero fetches; otherwise the paginated
loop runs from an integer cursor 0 with an empty accumulator. -/
def extract_comment_replies (uid : String) (c : RawComment)
    (trace : List (Except PyErr ReplyPage)) :
    Except PyErr (List RawReply) × Nat :=
  if c.reply_comment_total.getD 0 ≤ 4 then
    (.ok (c.reply_comment.getD []), 0)
  else
    replyLoop uid (.int 0) [] trace

/-- One comment as served by the comment-list endpoint, together with
the responses the reply endpoint would serve for it. -/
structure CommentEntry where
  comment : RawComment
  replyTrace : List (Except PyErr ReplyPage)

/-- The parsed body of one comment-list response
(`comment_data.get('comments', [])`). -/
structure CommentPage where
  comments : Option (List CommentEntry)

/-- A comment after the pipeline set `comment['is_author_reply']` and
`comment['replies']`. -/
structure ProcessedComment where
  comment : RawComment
  replies : List RawReply

/-- The body of the per-comment loop in `extract_comment_batch`
(scraper.py lines 248-251): tag the comment, then resolve its replies
(the tagged comment is what is passed on, as in the source, though
tagging does not affect the fields the reply step reads). -/
def processComment (uid : String) (e : CommentEntry) :
    Except PyErr ProcessedComment :=
  match e.comment.user with
  | none => .error .keyError
  | some u =>
    match (extract_comment_replies uid
        { e.comment with is_author_reply := some (u == uid) } e.replyTrace).1 with
    | .error err => .error err
    | .ok reps =>
      .ok { comment := { e.comment with is_author_reply := some (u == uid) }
            replies := reps }

/-- The per-comment loop of `extract_comment_batch`: comments are
processed in order and the first exception aborts the batch. -/
def processComments (uid : String) :
    List CommentEntry → Except PyErr (List ProcessedComment)
  | [] => .ok []
  | e :: es =>
    match processComment uid e with
    | .error err => .error err
    | .ok pc =>
      match processComments uid es with
      | .error err => .error err
      | .ok rest => .ok (pc :: rest)

/-- Embedding of `TikTokScraper.extract_comment_batch` (scraper.py lines 226-253),
driven by one trace element. -/
def extract_comment_batch (uid : String) (resp : Except PyErr CommentPage) :
    Except PyErr (List ProcessedComment) :=
  match resp with
  | .error e => .error e
  | .ok page => processComments uid (page.comments.getD [])

/-- The `while True` loop of `extract_comments` (scraper.py lines
200-222).  The whole body sits in a `try/except` whose handler breaks,
so an exception ends the loop with the comments collected so far.  An
empty batch breaks before extending; after extending, the 100-entry
check breaks before any further fetch.  The second component counts the
comment-page fetches performed. -/
def commentLoop (uid : String) (cursor : Int) (acc : List ProcessedComment) :
    List (Except PyErr CommentPage) → List ProcessedComment × Nat
  | [] => (acc, 0)
  | resp :: rest =>
    match extract_comment_batch uid resp with
    | .error _ => (acc, 1)
    | .ok comments =>
      if comments.isEmpty then (acc, 1)
      else
        if 100 ≤ (acc ++ comments).length then (acc ++ comments, 1)
        else
          let r := commentLoop uid (cursor + 20) (acc ++ comments) rest
          (r.1, r.2 + 1)

/-- Embedding of `TikTokScraper.extract_comments` (scraper.py lines 189-224):
`cursor, limit = 0, 20` and an empty accumulator. -/
def extract_comments (uid : String) (trace : List (Except PyErr CommentPage)) :
    List ProcessedComment × Nat :=
  commentLoop uid 0 [] trace

/-- Every reply in a successfully tagged batch carries
`is_author_reply = (its author id == the creator id)`. -/
theorem tagReplies_mem (uid : String) (xs : List RawReply) :
    ∀ ys, tagReplies uid xs = .ok ys →
      ∀ y ∈ ys, ∃ v, y.user = some v ∧ y.is_author_reply = some (v == uid) := by
  induction xs with
  | nil =>
    intro ys h y hy
    simp only [tagReplies] at h
    cases h
    simp at hy
  | cons r rs ih =>
    intro ys h y hy
    cases hu : r.user with
    | none => simp [tagReplies, tagReply, hu] at h
    | some u =>
      cases hrec : tagReplies uid rs with
      | error e => simp [tagReplies, tagReply, hu, hrec] at h
      | ok rest =>
        simp [tagReplies, tagReply, hu, hrec] at h
        subst h
        rcases List.mem_cons.mp hy with h1 | h2
        · subst h1
          exact ⟨u, rfl, rfl⟩
        · exact ih rest hrec y h2

/-- Claim C2 (amended): every comment processed by the comment pipeline
and every reply delivered by the paginated reply fetch carries
`is_author_reply = (author identifier == creator identifier)`; the
inline replies returned for a stated reply count `<= 4` are passed
through verbatim and are not tagged. -/
theorem C2_is_author_reply_tagging (uid u : String) (e : CommentEntry)
    (pc : ProcessedComment) (ys : List RawReply) (cv : PyVal)
    (resp : Except PyErr ReplyPage) (c : RawComment)
    (trace : List (Except PyErr ReplyPage)) :
    (processComment uid e = .ok pc → e.comment.user = some u →
      pc.comment.is_author_reply = some (u == uid)) ∧
    (fetch_comment_replies uid resp = .ok (ys, cv) →
      ∀ y ∈ ys, ∃ v, y.user = some v ∧ y.is_author_reply = some (v == uid)) ∧
    (c.reply_comment_total.getD 0 ≤ 4 →
      (extract_comment_replies uid c trace).1 = .ok (c.reply_comment.getD [])) := by
  refine ⟨?_, ?_, ?_⟩
  · intro hp hu
    simp only [processComment, hu] at hp
    split at hp
    · simp at hp
    · injection hp with h
      subst h
      rfl
  · intro hf
    cases resp with
    | error e2 => simp [fetch_comment_replies] at hf
    | ok page =>
      cases htag : tagReplies uid (page.comments.getD []) with
      | error e2 => simp [fetch_comment_replies, htag] at hf
      | ok tagged =>
        simp [fetch_comment_replies, htag] at hf
        intro y hy
        exact tagReplies_mem uid (page.comments.getD []) tagged htag y (hf.1 ▸ hy)
  · intro h
    simp [extract_comment_replies, h]

/-- A comment with a stated reply count of 3 and one untagged inline
reply: the pipeline hands the inline reply through with
`is_author_reply` still absent, refuting the claim that every produced
reply has the field set. -/
def c2reply : RawReply := { user := some "other", is_author_reply := none }

/-- The parent comment of `c2reply` for the C2 counterexample. -/
def c2comment : RawComment :=
  { user := some "creator", cid := some "c1", aweme_id := some "v1",
    reply_comment_total := some 3, reply_comment := some [c2reply],
    is_author_reply := none }

/-- Counterexample for C2: processing `c2comment` (reply count 3) yields
its inline reply untouched, with `is_author_reply` unset (`none`). -/
theorem C2_counterexample :
    processComment "creator" { comment := c2comment, replyTrace := [] } =
      .ok { comment := { c2comment with is_author_reply := some true },
            replies := [c2reply] } ∧
    c2reply.is_author_reply = none :=
  ⟨rfl, rfl⟩

/-- Witness for C2 (amended): a processed comment is tagged `false` when
its author differs from the creator, a paginated reply comes back with
the field set, and a reply count of 3 returns the inline list. -/
theorem C2_is_author_reply_tagging_witness :
    ({ comment := { c2comment with user := some "other",
                                   is_author_reply := some false },
       replies := [c2reply] } : ProcessedComment).comment.is_author_reply
        = some false ∧
    ({ user := some "creator", is_author_reply := some true }
        : RawReply).is_author_reply.isSome = true ∧
    ((extract_comment_replies "creator" c2comment []).1 = .ok [c2reply]) := by
  have h := C2_is_author_reply_tagging "creator" "other"
    { comment := { c2comment with user := some "other" }, replyTrace := [] }
    { comment := { c2comment with user := some "other",
                                  is_author_reply := some false },
      replies := [c2reply] }
    [{ user := some "creator", is_author_reply := some true }] (.str "")
    (.ok { comments := some [{ user := some "creator", is_author_reply := none }],
           cursor := none })
    c2comment []
  obtain ⟨v, hv1, hv2⟩ := h.2.1 rfl
    { user := some "creator", is_author_reply := some true }
    (List.mem_singleton.mpr rfl)
  refine ⟨h.1 rfl rfl, ?_, h.2.2 (by decide)⟩
  rw [hv2]
  rfl

/-- Claim C5: a stated reply count `<= 4` returns exactly the embedded
inline reply list with zero fetches; a reply count `> 4` runs the
paginated loop from an empty accumulator, and its result does not
depend on the inline `reply_comment` field at all — inline and
paginated replies are never merged. -/
theorem C5_inline_replies (uid : String) (c : RawComment)
    (trace : List (Except PyErr ReplyPage)) (alt : Option (List RawReply)) :
    (c.reply_comment_total.getD 0 ≤ 4 →
      extract_comment_replies uid c trace = (.ok (c.reply_comment.getD []), 0)) ∧
    (4 < c.reply_comment_total.getD 0 →
      extract_comment_replies uid c trace = replyLoop uid (.int 0) [] trace ∧
      extract_comment_replies uid c trace =
        extract_comment_replies uid { c with reply_comment := alt } trace) := by
  constructor
  · intro h
    simp [extract_comment_replies, h]
  · intro h
    have h' : ¬ c.reply_comment_total.getD 0 ≤ 4 := not_le.mpr h
    exact ⟨by simp [extract_comment_replies, h'], by simp [extract_comment_replies, h']⟩

/-- The concrete comment of Scenario C: `replyCount = 3` with two inline
replies. -/
def c5comment : RawComment :=
  { user := some "creator", cid := some "c5", aweme_id := some "v5",
    reply_comment_total := some 3,
    reply_comment := some [{ user := some "a", is_author_reply := none },
                           { user := some "b", is_author_reply := none }],
    is_author_reply := none }

/-- Witness for C5, Scenario C: the comment with `replyCount = 3` and two
inline replies resolves to exactly those two entries with zero fetches,
and a `replyCount = 7` variant ignores the inline list. -/
theorem C5_inline_replies_witness :
    extract_comment_replies "creator" c5comment
        [.ok { comments := some [], cursor := none }] =
      (.ok [{ user := some "a", is_author_reply := none },
            { user := some "b", is_author_reply := none }], 0) ∧
    extract_comment_replies "creator"
        { c5comment with reply_comment_total := some 7 }
        [.ok { comments := some [], cursor := none }] =
      extract_comment_replies "creator"
        { c5comment with reply_comment_total := some 7, reply_comment := none }
        [.ok { comments := some [], cursor := none }] := by
  constructor
  · exact (C5_inline_replies "creator" c5comment
      [.ok { comments := some [], cursor := none }] none).1 (by decide)
  · exact ((C5_inline_replies "creator"
      { c5comment with reply_comment_total := some 7 }
      [.ok { comments := some [], cursor := none }] none).2 (by decide)).2

/-- Claim C6: in the paginated reply loop, the cursor for the next fetch
is obtained by applying `+= 1` to the cursor value the previous fetch
returned; that increment raises `TypeError` on a textual cursor
(including the `''` default of `reply_data.get('cursor', '')`), so after
a non-empty batch whose cursor is a string the loop stops with the error
having issued no further fetch. -/
theorem C6_cursor_increment (uid : String) (cursor0 cv cursor2 : PyVal)
    (acc rs : List RawReply) (resp : Except PyErr ReplyPage)
    (rest : List (Except PyErr ReplyPage)) (s : String) :
    (fetch_comment_replies uid resp = .ok (rs, cv) → rs ≠ [] →
      pyPlusOne cv = .ok cursor2 →
      replyLoop uid cursor0 acc (resp :: rest) =
        ((replyLoop uid cursor2 (acc ++ rs) rest).1,
         (replyLoop uid cursor2 (acc ++ rs) rest).2 + 1)) ∧
    (pyPlusOne (.str s) = .error .typeError) ∧
    (fetch_comment_replies uid resp = .ok (rs, .str s) → rs ≠ [] →
      replyLoop uid cursor0 acc (resp :: rest) = (.error .typeError, 1)) := by
  refine ⟨?_, rfl, ?_⟩
  · intro hf hne hinc
    cases rs with
    | nil => exact absurd rfl hne
    | cons a as => simp [replyLoop, hf, hinc]
  · intro hf hne
    cases rs with
    | nil => exact absurd rfl hne
    | cons a as => simp [replyLoop, hf, pyPlusOne]

/-- Witness for C6: a page carrying one reply and no cursor field (so the
`''` default applies) makes the loop raise `TypeError` after that single
fetch; a page carrying an integer cursor advances normally. -/
theorem C6_cursor_increment_witness :
    replyLoop "creator" (.int 0) []
        [.ok { comments := some [{ user := some "w", is_author_reply := none }],
               cursor := none }] =
      (.error .typeError, 1) ∧
    replyLoop "creator" (.int 0) []
        [.ok { comments := some [{ user := some "w", is_author_reply := none }],
               cursor := some (.int 5) },
         .ok { comments := some [], cursor := none }] =
      (.ok [{ user := some "w", is_author_reply := some false }], 2) := by
  constructor
  · exact (C6_cursor_increment "creator" (.int 0)
      (.str "") (.int 0) [] [{ user := some "w", is_author_reply := some false }]
      (.ok { comments := some [{ user := some "w", is_author_reply := none }],
             cursor := none })
      [] "").2.2 rfl (List.cons_ne_nil _ _)
  · have h := (C6_cursor_increment "creator" (.int 0)
      (.int 5) (.int 6) [] [{ user := some "w", is_author_reply := some false }]
      (.ok { comments := some [{ user := some "w", is_author_reply := none }],
             cursor := some (.int 5) })
      [.ok { comments := some [], cursor := none }] "").1 rfl (List.cons_ne_nil _ _) rfl
    rw [h]
    rfl

/-- As long as the accumulator holds at most 99 comments, the comment
loop's result is bounded by 99 plus the largest batch a page can
contribute. -/
theorem commentLoop_length_bound (uid : String) (B : Nat)
    (trace : List (Except PyErr CommentPage)) :
    ∀ (cursor : Int) (acc : List ProcessedComment),
      acc.length ≤ 99 →
      (∀ r ∈ trace, ∀ l, extract_comment_batch uid r = .ok l → l.length ≤ B) →
      (commentLoop uid cursor acc trace).1.length ≤ 99 + B := by
  induction trace with
  | nil =>
    intro cursor acc hacc _
    simpa [commentLoop] using le_trans hacc (by omega)
  | cons resp rest ih =>
    intro cursor acc hacc hB
    cases hb : extract_comment_batch uid resp with
    | error e =>
      simp only [commentLoop, hb]
      exact le_trans hacc (Nat.le_add_right 99 B)
    | ok comments =>
      have hlen : comments.length ≤ B :=
        hB resp (List.mem_cons_self _ _) comments hb
      by_cases hne : comments.isEmpty = true
      · simp only [commentLoop, hb]
        rw [if_pos hne]
        exact le_trans hacc (Nat.le_add_right 99 B)
      · by_cases hcap : 100 ≤ (acc ++ comments).length
        · simp only [commentLoop, hb]
          rw [if_neg hne, if_pos hcap]
          simp only [List.length_append]
          omega
        · have hsmall : (acc ++ comments).length ≤ 99 := by
            simp only [List.length_append] at hcap ⊢
            omega
          simp only [commentLoop, hb]
          rw [if_neg hne, if_neg hcap]
          exact ih (cursor + 20) (acc ++ comments) hsmall
            (fun r hr => hB r (List.mem_cons_of_mem _ hr))

/-- Claim C3 (amended): the 100-entry cap is checked after each batch is
appended and before the next fetch — the moment the accumulator reaches
100 after an append the loop returns at once, with no further fetch —
but the returned list itself can exceed 100: it is only bounded by 99
plus the largest batch a single page contributes. -/
theorem C3_cap_after_append (uid : String) (cursor : Int)
    (acc batch : List ProcessedComment) (resp : Except PyErr CommentPage)
    (rest trace : List (Except PyErr CommentPage)) (B : Nat) :
    (extract_comment_batch uid resp = .ok batch → batch ≠ [] →
      100 ≤ (acc ++ batch).length →
      commentLoop uid cursor acc (resp :: rest) = (acc ++ batch, 1)) ∧
    ((∀ r ∈ trace, ∀ l, extract_comment_batch uid r = .ok l → l.length ≤ B) →
      (extract_comments uid trace).1.length ≤ 99 + B) := by
  constructor
  · intro hb hne hcap
    cases batch with
    | nil => exact absurd rfl hne
    | cons a as =>
      simp only [commentLoop, hb]
      rw [if_neg (by simp), if_pos hcap]
  · intro hB
    exact commentLoop_length_bound uid B trace 0 [] (by simp) hB

/-- One comment with no replies, used to build the C3 counterexample
pages. -/
def c3comment : RawComment :=
  { user := some "u", cid := some "c3", aweme_id := some "v3",
    reply_comment_total := some 0, reply_comment := some [],
    is_author_reply := none }

/-- Six comment pages of 17 comments each: the loop appends past the cap
(85 + 17 = 102) before noticing it. -/
def c3trace : List (Except PyErr CommentPage) :=
  List.replicate 6
    (.ok { comments := some (List.replicate 17
      { comment := c3comment, replyTrace := [] }) })

/-- Counterexample for C3: six pages of 17 comments yield a returned
list of 102 entries — more than 100 — because the cap is only checked
after the extend. -/
theorem C3_counterexample :
    (extract_comments "creator" c3trace).1.length = 102 ∧
    ¬ (extract_comments "creator" c3trace).1.length ≤ 100 := by
  constructor <;> decide

/-- Witness for C3 (amended): a single page of 101 comments makes the
loop stop immediately after the append, and with every batch bounded by
17 the result is bounded by 116. -/
theorem C3_cap_after_append_witness :
    commentLoop "creator" 0 []
        [.ok { comments := some (List.replicate 101
          { comment := c3comment, replyTrace := [] }) }] =
      (List.replicate 101
        { comment := { c3comment with is_author_reply := some false },
          replies := [] }, 1) ∧
    (extract_comments "creator" c3trace).1.length ≤ 99 + 17 := by
  constructor
  · have h := (C3_cap_after_append "creator" 0 []
      (List.replicate 101
        { comment := { c3comment with is_author_reply := some false },
          replies := [] })
      (.ok { comments := some (List.replicate 101
        { comment := c3comment, replyTrace := [] }) })
      [] c3trace 17).1 rfl (by simp) (by simp)
    simpa using h
  · refine (C3_cap_after_append "creator" 0 [] []
      (.ok { comments := none }) [] c3trace 17).2 ?_
    intro r hr l hl
    have hr6 : r ∈ List.replicate 6 (Except.ok { comments := some (List.replicate 17
        { comment := c3comment, replyTrace := [] }) } : Except PyErr CommentPage) := hr
    have hr' := List.eq_of_mem_replicate hr6
    subst hr'
    have h2 : extract_comment_batch "creator"
        (.ok { comments := some (List.replicate 17
          { comment := c3comment, replyTrace := [] }) }) =
        .ok (List.replicate 17
          { comment := { c3comment with is_author_reply := some false },
            replies := ([] : List RawReply) }) := rfl
    rw [h2] at hl
    injection hl with h3
    subst h3
    simp

/-- The characters following the first occurrence of `sep` in the text,
or `none` when `sep` does not occur. -/
def findAfter (sep : List Char) : List Char → Option (List Char)
  | [] => none
  | c :: cs =>
    if sep.isPrefixOf (c :: cs) then some (List.drop sep.length (c :: cs))
    else findAfter sep cs

/-- The regular expression step of `get_author_metadata` (scraper.py line
91): `re.search` with pattern `(?<="stats":)([^\x7d]*)` matches, at the
first occurrence of the literal `"stats":`, the following greedy run of
characters other than a closing brace; no occurrence means `re.search`
returns `None`. -/
def reSearchStats (text : String) : Option String :=
  match findAfter "\"stats\":".data text.data with
  | none => none
  | some rest => some (String.mk (rest.takeWhile (fun ch => ch ≠ '}')))

/-- Embedding of `TikTokScraper.get_author_metadata` (scraper.py lines 83-105).
`resp` is the transport's result (`None` on any non-200 or network
error); `jsonLoads` is the external `json.loads` collaborator applied to
the matched fragment with `"\x7d"` appended.  The `try/except` returns
`{}` on every failure: a `None` response (`TypeError` inside
`re.search`), a missing match (`AttributeError` on `match.group`), or a
JSON parse error. -/
def get_author_metadata (jsonLoads : String → Except PyErr Dict)
    (resp : Option String) : Dict :=
  match resp with
  | none => []
  | some text =>
    match reSearchStats text with
    | none => []
    | some frag =>
      match jsonLoads (frag ++ "\x7d") with
      | .error _ => []
      | .ok d => d

/-- The `item['stats']` sub-dictionary of a search item; each counter is
`none` when the key is absent (subscripting then raises `KeyError`). -/
structure VideoStats where
  diggCount : Option Int
  shareCount : Option Int
  playCount : Option Int
  commentCount : Option Int

/-- A raw search item as consumed by `process_video_item`; every field
read with `item[...]` is an `Option`, `none` standing for an absent key. -/
structure VideoItem where
  stats : Option VideoStats
  author : Option Dict
  video : Option PyVal
  desc : Option String
  id : Option String
  createTime : Option Int
  textExtra : Option (List PyVal)

/-- The engagement computation of `process_video_item` (scraper.py lines
157-162): four subscript chains into `item['stats']`, then
`calculate_engagement_rate` with `likes=diggCount, shares=shareCount,
views=playCount, comments=commentCount`. -/
def engagement_of_item (item : VideoItem) : Except PyErr Rat :=
  match item.stats with
  | none => .error .keyError
  | some st =>
    match st.diggCount, st.shareCount, st.playCount, st.commentCount with
    | some likes, some shares, some views, some comments =>
      .ok (calculate_engagement_rate likes comments shares views)
    | _, _, _, _ => .error .keyError

/-- The `processed_item` dictionary assembled at scraper.py lines
168-177, with the `comments` key attached at line 183. -/
structure ProcessedRecord where
  author : Dict
  video : PyVal
  description : String
  id : String
  create_time : Int
  hashtags : List PyVal
  engagement_rate : Rat
  stats : VideoStats
  comments : List ProcessedComment

/-- Assembly of `processed_item` (scraper.py lines 168-177): the author
dict is `{**item['author'], **author_stats}`, `textExtra` uses a `.get`
default of `[]`, the other fields are direct subscripts (`KeyError` when
absent).  `comments` is attached afterwards. -/
def build_processed_item (item : VideoItem) (author_stats : Dict) (er : Rat) :
    Except PyErr ProcessedRecord :=
  match item.author, item.video, item.desc, item.id, item.createTime, item.stats with
  | some author, some video, some desc, some vid, some ct, some st =>
    .ok { author := dictMerge author author_stats
          video := video
          description := desc
          id := vid
          create_time := ct
          hashtags := item.textExtra.getD []
          engagement_rate := er
          stats := st
          comments := [] }
  | _, _, _, _, _, _ => .error .keyError

/-- Everything the network serves while one video item is processed: the
profile-page response, the external `json.loads` applied to the stats
fragment, and the comment pages (each bundling its reply pages). -/
structure ItemEnv where
  jsonLoads : String → Except PyErr Dict
  authorResp : Option String
  commentTrace : List (Except PyErr CommentPage)

/-- The body of the `try` block of `process_video_item` (scraper.py
lines 156-185): engagement, enrichment, assembly, comment extraction.
`item['author'].get('uniqueId')` at line 165 only feeds the profile URL,
which the trace model supplies directly; the `unique_id` passed to
`extract_comments` is the direct subscript `item['author']['uniqueId']`
of line 181 (a `KeyError` when the key is absent, converted by `str`
semantics of the comparison's right-hand side otherwise). -/
def process_video_item_body (env : ItemEnv) (item : VideoItem) :
    Except PyErr ProcessedRecord :=
  match engagement_of_item item with
  | .error e => .error e
  | .ok er =>
    match item.author with
    | none => .error .keyError
    | some author =>
      match build_processed_item item
          (get_author_metadata env.jsonLoads env.authorResp) er with
      | .error e => .error e
      | .ok pre =>
        match dictGet author "uniqueId" with
        | none => .error .keyError
        | some uidVal =>
          .ok { pre with
                comments := (extract_comments (pyStr uidVal) env.commentTrace).1 }

/-- The ingestion form built by `fill_profile_data` (input_api.py).
The timestamp is kept raw (its `strftime` rendering is an external
concern); constant fields that no claim touches are omitted. -/
structure InfluencerForm where
  name : PyVal
  username : PyVal
  email : String
  bio : PyVal
  profile_url : String
  date_last_post : Int
  follower_count : PyVal
  engagement_rate : Rat
  active_status : Bool

/-- Embedding of `fill_profile_data` (input_api.py lines 3-31) on a ProcessedRecord. -/
def fill_profile_data (rec : ProcessedRecord) : InfluencerForm :=
  { name := (dictGet rec.author "nickname").getD (.str "")
    username := (dictGet rec.author "uniqueId").getD (.str "")
    email := pyStr ((dictGet rec.author "uniqueId").getD (.str "")) ++ "@gmail.com"
    bio := (dictGet rec.author "signature").getD (.str "")
    profile_url := "https://www.tiktok.com/"
      ++ pyStr ((dictGet rec.author "uniqueId").getD (.str ""))
    date_last_post := rec.create_time
    follower_count := (dictGet rec.author "followerCount").getD (.str "")
    engagement_rate := rec.engagement_rate
    active_status := true }

/-- Embedding of `TikTokScraper.process_video_item` (scraper.py lines 150-187): the
whole body sits in a `try/except` that logs and drops the item, so the
function always returns; the result is the list of records pushed
towards the Persister (`fill_profile_data` then the ingestion POST,
which itself never raises). -/
def process_video_item (env : ItemEnv) (item : VideoItem) :
    List InfluencerForm :=
  match process_video_item_body env item with
  | .error _ => []
  | .ok rec => [fill_profile_data rec]

/-- The parsed body of one search response: `data_list['item_list']` is
a direct subscript, so `none` (absent key) raises `KeyError`.  Each item
comes bundled with the responses the network serves while it is
processed. -/
structure SearchPage where
  item_list : Option (List (VideoItem × ItemEnv))

/-- The `while len(self.total_data) < self.max_influencers` loop of
`extract_influencers` (scraper.py lines 115-148).  Nothing in the body
ever appends to `total_data`.  One trace element is consumed per fetch;
an error element is the exception `json.loads` raises on a failed or
malformed response, caught by the `except` that breaks the loop.  The
result is `(total_data, pushes performed, fetches performed)`. -/
def searchLoop (maxInf : Int) (totalData : List PyVal) (offset : Int)
    (pushes : List InfluencerForm) :
    List (Except PyErr SearchPage) → List PyVal × List InfluencerForm × Nat
  | [] => (totalData, pushes, 0)
  | resp :: rest =>
    if (totalData.length : Int) < maxInf then
      match resp with
      | .error _ => (totalData, pushes, 1)
      | .ok page =>
        match page.item_list with
        | none => (totalData, pushes, 1)
        | some items =>
          let pushes2 := pushes ++ items.foldl
            (fun acc it => acc ++ process_video_item it.2 it.1) []
          if maxInf ≤ (totalData.length : Int) then (totalData, pushes2, 1)
          else
            let r := searchLoop maxInf totalData (offset + 20) pushes2 rest
            (r.1, r.2.1, r.2.2 + 1)
    else (totalData, pushes, 0)

/-- Embedding of `TikTokScraper.extract_influencers` (scraper.py lines 107-148):
`total_data = []`, `offset = 0`, `limit = 20` from `__init__`. -/
def extract_influencers (maxInf : Int)
    (trace : List (Except PyErr SearchPage)) :
    List PyVal × List InfluencerForm × Nat :=
  searchLoop maxInf [] 0 [] trace

/-- Claim C7: `process_video_item` is total — an exception anywhere in
its body is caught and yields no push at all, and a successful body
yields exactly the one assembled record, pushed through
`fill_profile_data`. -/
theorem C7_process_video_item_guard (env : ItemEnv) (item : VideoItem)
    (e : PyErr) (rec : ProcessedRecord) :
    (process_video_item_body env item = .error e →
      process_video_item env item = []) ∧
    (process_video_item_body env item = .ok rec →
      process_video_item env item = [fill_profile_data rec]) := by
  constructor
  · intro h
    simp [process_video_item, h]
  · intro h
    simp [process_video_item, h]

/-- An environment whose profile fetch fails and whose comment trace is
empty, used by the C7 and C8 witnesses. -/
def c7env : ItemEnv :=
  { jsonLoads := fun _ => .error .valueError, authorResp := none,
    commentTrace := [] }

/-- A search item missing its `stats` key: subscripting raises
`KeyError`. -/
def c7itemBad : VideoItem :=
  { stats := none, author := none, video := none, desc := none,
    id := none, createTime := none, textExtra := none }

/-- A complete search item (with `playCount = 0`). -/
def c7item : VideoItem :=
  { stats := some { diggCount := some 10, shareCount := some 5,
                    playCount := some 0, commentCount := some 5 },
    author := some [("uniqueId", .str "creator")],
    video := some (.str "vid"), desc := some "d", id := some "id1",
    createTime := some 1700000000, textExtra := some [] }

/-- The record `process_video_item` assembles from `c7item` under
`c7env`. -/
def c7rec : ProcessedRecord :=
  { author := [("uniqueId", .str "creator")], video := .str "vid",
    description := "d", id := "id1", create_time := 1700000000,
    hashtags := [], engagement_rate := 0,
    stats := { diggCount := some 10, shareCount := some 5,
               playCount := some 0, commentCount := some 5 },
    comments := [] }

/-- Witness for C7: the malformed item is dropped with zero pushes, the
complete item yields exactly one push. -/
theorem C7_process_video_item_guard_witness :
    process_video_item c7env c7itemBad = [] ∧
    process_video_item c7env c7item = [fill_profile_data c7rec] := by
  constructor
  · exact (C7_process_video_item_guard c7env c7itemBad .keyError c7rec).1 rfl
  · exact (C7_process_video_item_guard c7env c7item .keyError c7rec).2 rfl

/-- Helper: `build_processed_item` with an empty enrichment map keeps the item's
author dictionary unmodified and the given engagement rate. -/
theorem build_empty_stats (item : VideoItem) (er : Rat)
    (pre : ProcessedRecord) :
    build_processed_item item [] er = .ok pre →
    item.author = some pre.author ∧ pre.engagement_rate = er := by
  intro h
  cases ha : item.author with
  | none => simp [build_processed_item, ha] at h
  | some author =>
    cases hv : item.video with
    | none => simp [build_processed_item, ha, hv] at h
    | some video =>
      cases hd : item.desc with
      | none => simp [build_processed_item, ha, hv, hd] at h
      | some desc =>
        cases hi : item.id with
        | none => simp [build_processed_item, ha, hv, hd, hi] at h
        | some vid =>
          cases hc : item.createTime with
          | none => simp [build_processed_item, ha, hv, hd, hi, hc] at h
          | some ct =>
            cases hs : item.stats with
            | none => simp [build_processed_item, ha, hv, hd, hi, hc, hs] at h
            | some st =>
              simp only [build_processed_item, ha, hv, hd, hi, hc, hs] at h
              injection h with h2
              subst h2
              exact ⟨rfl, rfl⟩

/-- Claim C8: `get_author_metadata` absorbs every fetch or parse failure
into the empty map, the Python merge with an empty map is the identity,
and a record assembled under a failed profile fetch keeps the item's
author fields unmodified with the engagement rate exactly as computed
from the item's own counters. -/
theorem C8_enrichment_failure (jl : String → Except PyErr Dict)
    (text frag : String) (e : PyErr) (a : Dict) (env : ItemEnv)
    (item : VideoItem) (rec : ProcessedRecord) :
    (get_author_metadata jl none = []) ∧
    (reSearchStats text = none → get_author_metadata jl (some text) = []) ∧
    (reSearchStats text = some frag → jl (frag ++ "\x7d") = .error e →
      get_author_metadata jl (some text) = []) ∧
    (dictMerge a [] = a) ∧
    (env.authorResp = none → process_video_item_body env item = .ok rec →
      item.author = some rec.author ∧
      engagement_of_item item = .ok rec.engagement_rate) := by
  refine ⟨rfl, ?_, ?_, rfl, ?_⟩
  · intro h
    simp [get_author_metadata, h]
  · intro h1 h2
    simp [get_author_metadata, h1, h2]
  · intro hresp hok
    cases her : engagement_of_item item with
    | error e2 => simp [process_video_item_body, her] at hok
    | ok er =>
      cases ha : item.author with
      | none => simp [process_video_item_body, her, ha] at hok
      | some author =>
        simp only [process_video_item_body, her, ha, hresp] at hok
        have hgam : get_author_metadata env.jsonLoads none = [] := rfl
        rw [hgam] at hok
        cases hb : build_processed_item item [] er with
        | error e2 => rw [hb] at hok; cases hok
        | ok pre =>
          rw [hb] at hok
          cases hg : dictGet author "uniqueId" with
          | none => rw [hg] at hok; cases hok
          | some uidVal =>
            rw [hg] at hok
            injection hok with h2
            subst h2
            obtain ⟨hb1, hb2⟩ := build_empty_stats item er pre hb
            rw [ha] at hb1
            refine ⟨hb1, ?_⟩
            show Except.ok er = Except.ok pre.engagement_rate
            rw [hb2]

/-- A search item for the C8 witness, identical in shape to `c7item`
but with its own author handle. -/
def c8item : VideoItem :=
  { stats := some { diggCount := some 10, shareCount := some 5,
                    playCount := some 0, commentCount := some 5 },
    author := some [("uniqueId", .str "u8"), ("nickname", .str "n8")],
    video := some (.str "v8"), desc := some "d8", id := some "i8",
    createTime := some 1, textExtra := some [] }

/-- The record assembled from `c8item` when the profile fetch fails. -/
def c8rec : ProcessedRecord :=
  { author := [("uniqueId", .str "u8"), ("nickname", .str "n8")],
    video := .str "v8", description := "d8", id := "i8", create_time := 1,
    hashtags := [], engagement_rate := 0,
    stats := { diggCount := some 10, shareCount := some 5,
               playCount := some 0, commentCount := some 5 },
    comments := [] }

/-- Witness for C8, Scenario E: a failed profile fetch yields the empty
map at every failure point, the merge with the empty map is the
identity on a concrete dict, and the record built from `c8item` keeps
its author fields and its own engagement rate. -/
theorem C8_enrichment_failure_witness :
    get_author_metadata (fun _ => .error .valueError) none = [] ∧
    get_author_metadata (fun _ => .error .valueError) (some "no match here") = [] ∧
    get_author_metadata (fun _ => .error .valueError)
      (some "pre\"stats\":abc\x7dpost") = [] ∧
    dictMerge [("uniqueId", .str "u8")] [] = [("uniqueId", .str "u8")] ∧
    (c8item.author = some c8rec.author ∧
      engagement_of_item c8item = .ok c8rec.engagement_rate) := by
  have h := C8_enrichment_failure (fun _ => .error .valueError)
    "pre\"stats\":abc\x7dpost" "abc" .valueError [("uniqueId", .str "u8")]
    c7env c8item c8rec
  refine ⟨h.1, ?_, h.2.2.1 (by decide) rfl, h.2.2.2.1, h.2.2.2.2 rfl rfl⟩
  exact (C8_enrichment_failure (fun _ => .error .valueError)
    "no match here" "" .valueError [] c7env c8item c8rec).2.1 (by decide)

/-- The accumulator `total_data` is returned exactly as it was on entry:
no branch of the search loop ever appends to it. -/
theorem searchLoop_fst (maxInf : Int) (trace : List (Except PyErr SearchPage)) :
    ∀ (td : List PyVal) (off : Int) (ps : List InfluencerForm),
      (searchLoop maxInf td off ps trace).1 = td := by
  induction trace with
  | nil =>
    intro td off ps
    rfl
  | cons r rest ih =>
    intro td off ps
    by_cases h : (td.length : Int) < maxInf
    · cases r with
      | error e => simp [searchLoop, h]
      | ok page =>
        cases hil : page.item_list with
        | none => simp [searchLoop, h, hil]
        | some items =>
          by_cases h2 : maxInf ≤ (td.length : Int)
          · simp [searchLoop, h, hil, h2]
          · simp [searchLoop, h, hil, h2, ih]
    · simp [searchLoop, h]

/-- While the accumulator is below the target and every response parses
with an `item_list`, the search loop consumes the entire trace: it never
stops of its own accord. -/
theorem searchLoop_count (maxInf : Int) (td : List PyVal)
    (hlt : (td.length : Int) < maxInf) :
    ∀ (trace : List (Except PyErr SearchPage)) (off : Int)
      (ps : List InfluencerForm),
      (∀ r ∈ trace, ∃ items, r = .ok { item_list := some items }) →
      (searchLoop maxInf td off ps trace).2.2 = trace.length := by
  intro trace
  induction trace with
  | nil =>
    intro off ps _
    rfl
  | cons r rest ih =>
    intro off ps hok
    obtain ⟨items, rfl⟩ := hok r (List.mem_cons_self _ _)
    have h2 : ¬ maxInf ≤ (td.length : Int) := not_le.mpr hlt
    simp [searchLoop, hlt, h2]
    exact ih (off + 20) _ (fun r hr => hok r (List.mem_cons_of_mem _ hr))

/-- Claim C10: nothing ever appends to `total_data`, so
`extract_influencers` always returns the empty list, and with a positive
target the stop conditions are never met — through any window of
successfully parsed responses the loop fetches every single page (it can
only stop on an exception). -/
theorem C10_accumulator_never_appended (maxInf : Int)
    (trace : List (Except PyErr SearchPage)) :
    (extract_influencers maxInf trace).1 = [] ∧
    (0 < maxInf →
      (∀ r ∈ trace, ∃ items, r = .ok { item_list := some items }) →
      (extract_influencers maxInf trace).2.2 = trace.length) := by
  constructor
  · exact searchLoop_fst maxInf trace [] 0 []
  · intro hpos hok
    exact searchLoop_count maxInf [] (by simpa using hpos) trace 0 [] hok

/-- Witness for C10: a run over three non-empty, well-formed pages with
target 5 returns the empty list and fetches all three pages. -/
theorem C10_accumulator_never_appended_witness :
    (extract_influencers 5 (List.replicate 3 (.ok { item_list := some [] }))).1
      = [] ∧
    (extract_influencers 5 (List.replicate 3 (.ok { item_list := some [] }))).2.2
      = 3 := by
  have h := C10_accumulator_never_appended 5
    (List.replicate 3 (.ok { item_list := some [] }))
  refine ⟨h.1, ?_⟩
  have h2 := h.2 (by norm_num) (fun r hr => ⟨[], List.eq_of_mem_replicate hr⟩)
  simpa using h2

/-- Claim C1 (amended): the comment loop and the reply loop stop at the
first empty fetched page with no further fetch; the search loop has no
empty-page check — an empty `item_list` produces zero pushes for that
page, but the loop advances the offset and keeps fetching. -/
theorem C1_empty_page_termination (uid : String) (ccursor : Int)
    (rcursor cv : PyVal) (cacc : List ProcessedComment) (racc : List RawReply)
    (cresp : Except PyErr CommentPage) (crest : List (Except PyErr CommentPage))
    (rresp : Except PyErr ReplyPage) (rrest : List (Except PyErr ReplyPage))
    (maxInf : Int) (td : List PyVal) (off : Int) (ps : List InfluencerForm)
    (srest : List (Except PyErr SearchPage)) :
    (extract_comment_batch uid cresp = .ok [] →
      commentLoop uid ccursor cacc (cresp :: crest) = (cacc, 1)) ∧
    (fetch_comment_replies uid rresp = .ok ([], cv) →
      replyLoop uid rcursor racc (rresp :: rrest) = (.ok racc, 1)) ∧
    ((td.length : Int) < maxInf →
      searchLoop maxInf td off ps (.ok { item_list := some [] } :: srest) =
        ((searchLoop maxInf td (off + 20) ps srest).1,
         (searchLoop maxInf td (off + 20) ps srest).2.1,
         (searchLoop maxInf td (off + 20) ps srest).2.2 + 1)) := by
  refine ⟨?_, ?_, ?_⟩
  · intro hb
    simp [commentLoop, hb]
  · intro hf
    simp [replyLoop, hf]
  · intro hlt
    have h2 : ¬ maxInf ≤ (td.length : Int) := not_le.mpr hlt
    simp [searchLoop, hlt, h2]

/-- Two search responses, both with an empty `item_list`. -/
def c1trace : List (Except PyErr SearchPage) :=
  [.ok { item_list := some [] }, .ok { item_list := some [] }]

/-- Counterexample for C1: with target 1, the first fetched search page
has an empty item list, yet a second fetch is issued (two fetches are
consumed, not one) — the search loop does not terminate on an empty
page.  No push occurs, so the "zero Persister pushes" half alone was
right. -/
theorem C1_counterexample :
    (extract_influencers 1 c1trace).2.2 = 2 ∧
    ¬ (extract_influencers 1 c1trace).2.2 ≤ 1 ∧
    (extract_influencers 1 c1trace).2.1 = [] := by
  refine ⟨rfl, by decide, rfl⟩

/-- Witness for C1 (amended): one empty comment page, one empty reply
page, one empty search page, each at the head of its trace. -/
theorem C1_empty_page_termination_witness :
    commentLoop "u" 0 [] [.ok { comments := some [] }] = ([], 1) ∧
    replyLoop "u" (.int 0) [] [.ok { comments := some [], cursor := none }]
      = (.ok [], 1) ∧
    searchLoop 1 [] 0 [] [.ok { item_list := some [] }] =
      ((searchLoop 1 [] 20 [] []).1, (searchLoop 1 [] 20 [] []).2.1,
       (searchLoop 1 [] 20 [] []).2.2 + 1) := by
  have h := C1_empty_page_termination "u" 0 (.int 0) (.str "") [] []
    (.ok { comments := some [] }) []
    (.ok { comments := some [], cursor := none }) []
    1 [] 0 [] []
  exact ⟨h.1 rfl, h.2.1 rfl, h.2.2 (by decide)⟩
